import Mathlib

/-!
Shallow embedding of the form-field extraction / mapping / instruction /
autofill pipeline of the job_application_autofill_agent repository
(two project variants, `guo-...` and `yin-...`), together with theorems
settling the specification claims about it.

Python strings are modelled as Lean `String`; Python `str.lower()` as
`strLower`; the Python substring test `a in b` as
`strContains b a`; Python dicts that are only iterated are modelled as
association lists in insertion order (CPython dicts iterate in insertion
order).
-/

namespace JobAutofill

/-- Here `leadsWith needle hay` is true iff `needle` is an initial segment of
`hay` (character lists). -/
def leadsWith : List Char → List Char → Bool
  | [], _ => true
  | _ :: _, [] => false
  | c :: cs, x :: xs => c == x && leadsWith cs xs

/-- Here `containsSub hay needle` is true iff `needle` occurs as a contiguous
substring of `hay`; this is Python's `needle in hay` on strings. -/
def containsSub (hay needle : List Char) : Bool :=
  match hay with
  | [] => needle.isEmpty
  | _ :: t => leadsWith needle hay || containsSub t needle

/-- Python `needle in hay` for `String`s. -/
def strContains (hay needle : String) : Bool :=
  containsSub hay.data needle.data

/-- Python `str.lower()` for the ASCII strings handled here, written over
the character list so that it reduces inside the kernel. -/
def strLower (s : String) : String :=
  String.mk (s.data.map Char.toLower)

/-- Python `str.strip()` for the whitespace handled here, written over
the character list so that it reduces inside the kernel. -/
def strTrim (s : String) : String :=
  String.mk
    ((List.dropWhile Char.isWhitespace
      (List.dropWhile Char.isWhitespace s.data.reverse).reverse))

/-- One `option` entry of a select field, as carried through the scraped
JSON: its `value` attribute and its display `text`. -/
structure OptionData where
  value : String
  text : String
  deriving Repr, DecidableEq

/-- One scraped form-field record as consumed by the mappers
(`name`, `type`, `id`, `label`, `placeholder`, `required`, `options`).
Missing attributes are the empty string, as produced by
`field.get(..., '')` in the source. -/
structure FormField where
  name : String
  type : String
  id : String
  label : String
  placeholder : String
  required : Bool
  options : List OptionData
  deriving Repr, DecidableEq

namespace Guo

/-- The per-key match test of the profile-key loop in
`generate_autofill_instructions` (guo `mapper_agent.py`, lines 100-111):
a key matches if it is equal to the field name case-insensitively, or if
either lowered string contains the other. -/
def user_field_matches (field_name user_field : String) : Bool :=
  strLower field_name == strLower user_field
    || strContains (strLower user_field) (strLower field_name)
    || strContains (strLower field_name) (strLower user_field)

/-- The profile-key loop of `generate_autofill_instructions` (guo
`mapper_agent.py`, lines 100-111): iterate over the flattened user data
in insertion order; for each key first try the exact comparison, then the
two-sided substring comparison; the first key that hits supplies the
value. -/
def findUserValue (field_name : String) : List (String × String) → Option String
  | [] => none
  | (user_field, user_value) :: rest =>
    if strLower field_name == strLower user_field then some user_value
    else if strContains (strLower user_field) (strLower field_name)
        || strContains (strLower field_name) (strLower user_field) then some user_value
    else findUserValue field_name rest

/-- The select-option loop of `generate_autofill_instructions` (guo
`mapper_agent.py`, lines 117-130): skip options whose lowered text and
value are both empty; otherwise select the first option whose lowered
text or lowered value contains the lowered candidate value. -/
def resolveSelectOption (value : String) : List OptionData → Option String
  | [] => none
  | opt :: rest =>
    let option_text := strLower opt.text
    let option_value := strLower opt.value
    if option_text == "" && option_value == "" then resolveSelectOption value rest
    else if strContains option_text (strLower value)
        || strContains option_value (strLower value) then some opt.value
    else resolveSelectOption value rest

/-- One field-mapping record emitted by the guo mapper: regular fields
carry `value`, select fields carry `selected_option`. -/
structure FieldMapping where
  field_name : String
  field_type : String
  value : Option String
  selected_option : Option String
  deriving Repr, DecidableEq

/-- The field loop of `generate_autofill_instructions` (guo
`mapper_agent.py`, lines 85-152), returning the `matched_fields` list and
the `unmapped_required_fields` list: fields with empty name are skipped;
otherwise the flattened profile is searched; for matched select fields
with a non-empty option list the option is resolved (failure demotes the
field to unmatched); unmatched required fields are recorded. -/
def generate_autofill_instructions
    (form_fields : List FormField) (flat_user_data : List (String × String)) :
    List FieldMapping × List String :=
  match form_fields with
  | [] => ([], [])
  | field :: rest =>
    let (ms, us) := generate_autofill_instructions rest flat_user_data
    if field.name == "" then (ms, us)
    else
      match findUserValue field.name flat_user_data with
      | none => if field.required then (ms, field.name :: us) else (ms, us)
      | some value =>
        if field.type == "select" && !field.options.isEmpty then
          match resolveSelectOption value field.options with
          | some selected_option =>
            (⟨field.name, field.type, none, some selected_option⟩ :: ms, us)
          | none => if field.required then (ms, field.name :: us) else (ms, us)
        else (⟨field.name, field.type, some value, none⟩ :: ms, us)

end Guo

namespace Yin

/-- One piece of a pattern from the yin mapper's pattern table: either a
literal character, or the optional separator class written `[ _-]?` in the
source (zero or one of space, underscore, hyphen). Every pattern in the
table is built from these two pieces only. -/
inductive PatPiece where
  | lit (c : Char)
  | sep
  deriving Repr, DecidableEq

/-- Translate one pattern string of the table into pieces: the exact
six-character sequence `[ _-]?` becomes `sep`, every other character a
literal. -/
def compilePat : List Char → List PatPiece
  | '[' :: ' ' :: '_' :: '-' :: ']' :: '?' :: rest => .sep :: compilePat rest
  | c :: rest => .lit c :: compilePat rest
  | [] => []

/-- Here `matchPieces ps s` holds iff the pieces `ps` match some initial
segment of `s`. -/
def matchPieces : List PatPiece → List Char → Bool
  | [], _ => true
  | .lit _ :: _, [] => false
  | .lit c :: ps, x :: xs => x == c && matchPieces ps xs
  | .sep :: ps, [] => matchPieces ps []
  | .sep :: ps, x :: xs =>
    ((x == ' ' || x == '_' || x == '-') && matchPieces ps xs)
      || matchPieces ps (x :: xs)

/-- Here `searchPat ps s` holds iff the pieces match starting at some position
of `s`; this is the semantics of Python's
`re.match(".*" + pattern + ".*", s)` for the table's patterns. -/
def searchPat (ps : List PatPiece) : List Char → Bool
  | [] => matchPieces ps []
  | x :: xs => matchPieces ps (x :: xs) || searchPat ps xs

/-- The regex test of `map_fields_to_user_data` (yin `mapper_agent.py`,
lines 76-82): the pattern, wrapped in `.*...*`, is matched against the
lowered name, id, label and placeholder of the field. -/
def patMatches (p : String) (field_name field_id field_label field_placeholder : String) : Bool :=
  let ps := compilePat p.data
  searchPat ps field_name.data || searchPat ps field_id.data
    || searchPat ps field_label.data || searchPat ps field_placeholder.data

/-- The `field_mapping_patterns` table of `map_fields_to_user_data` (yin
`mapper_agent.py`, lines 25-62), in source declaration order. -/
def field_mapping_patterns : List (String × List String) :=
  [ ("name", ["name", "full[ _-]?name", "your[ _-]?name"]),
    ("first[ _-]?name", ["first[ _-]?name", "given[ _-]?name", "forename"]),
    ("last[ _-]?name", ["last[ _-]?name", "family[ _-]?name", "surname"]),
    ("email", ["email", "e[ _-]?mail", "email[ _-]?address"]),
    ("phone", ["phone", "telephone", "mobile", "cell", "phone[ _-]?number"]),
    ("address", ["address", "street[ _-]?address", "mailing[ _-]?address"]),
    ("city", ["city", "town"]),
    ("state", ["state", "province", "region"]),
    ("zip", ["zip", "zip[ _-]?code", "postal[ _-]?code"]),
    ("country", ["country", "nation"]),
    ("education", ["education", "degree", "qualification"]),
    ("university", ["university", "college", "school", "institution"]),
    ("major", ["major", "field[ _-]?of[ _-]?study", "course"]),
    ("gpa", ["gpa", "grade[ _-]?point[ _-]?average"]),
    ("graduation", ["graduation[ _-]?date", "year[ _-]?of[ _-]?graduation", "completion[ _-]?date"]),
    ("experience", ["experience", "work[ _-]?experience", "employment[ _-]?history"]),
    ("company", ["company", "employer", "organization", "firm"]),
    ("position", ["position", "title", "job[ _-]?title", "role"]),
    ("start_date", ["start[ _-]?date", "from", "beginning[ _-]?date"]),
    ("end_date", ["end[ _-]?date", "to", "completion[ _-]?date"]),
    ("skills", ["skills", "abilities", "competencies", "proficiencies"]),
    ("languages", ["languages", "language[ _-]?proficiency"]),
    ("resume", ["resume", "cv", "curriculum[ _-]?vitae"]),
    ("cover_letter", ["cover[ _-]?letter", "motivation[ _-]?letter", "application[ _-]?letter"]),
    ("references", ["references", "referees"]),
    ("portfolio", ["portfolio", "work[ _-]?samples", "projects"]),
    ("linkedin", ["linkedin", "linkedin[ _-]?profile", "linkedin[ _-]?url"]),
    ("github", ["github", "github[ _-]?profile", "github[ _-]?url"]),
    ("website", ["website", "personal[ _-]?website", "portfolio[ _-]?website"]),
    ("salary", ["salary", "salary[ _-]?expectation", "expected[ _-]?salary", "desired[ _-]?salary"]),
    ("availability", ["availability", "start[ _-]?date", "when[ _-]?can[ _-]?you[ _-]?start"]),
    ("visa", ["visa[ _-]?status", "work[ _-]?authorization", "right[ _-]?to[ _-]?work"]),
    ("gender", ["gender", "sex"]),
    ("race", ["race", "ethnicity"]),
    ("veteran", ["veteran[ _-]?status", "military[ _-]?service"]),
    ("disability", ["disability", "disability[ _-]?status"]) ]

/-- The inner pattern loop of `map_fields_to_user_data` (yin
`mapper_agent.py`, lines 74-92): walk the category's patterns in order;
on the first pattern hit, the field is mapped iff the category is in the
schema (`inSchema`); a hit with the category absent from the schema moves
on to the next pattern, exactly as the source's `break` sits inside the
schema check. -/
def tryPatterns (inSchema : Bool)
    (field_name field_id field_label field_placeholder : String) : List String → Bool
  | [] => false
  | p :: rest =>
    if patMatches p field_name field_id field_label field_placeholder then
      if inSchema then true
      else tryPatterns inSchema field_name field_id field_label field_placeholder rest
    else tryPatterns inSchema field_name field_id field_label field_placeholder rest

/-- The outer category loop of `map_fields_to_user_data` (yin
`mapper_agent.py`, lines 73-95): first category whose pattern loop maps
the field wins. -/
def tryCategories (schema : List String)
    (field_name field_id field_label field_placeholder : String) :
    List (String × List String) → Option String
  | [] => none
  | (user_field, patterns) :: rest =>
    if tryPatterns (schema.contains user_field)
        field_name field_id field_label field_placeholder patterns
    then some user_field
    else tryCategories schema field_name field_id field_label field_placeholder rest

/-- The value stored in the yin mapper's `mapping` dict for one mapped
form field. -/
structure MappingInfo where
  user_field : String
  required : Bool
  field_type : String
  options : List OptionData
  deriving Repr, DecidableEq

/-- One entry of the yin mapper's `required_missing_fields` list. -/
structure MissingField where
  name : String
  label : String
  type : String
  options : List OptionData
  deriving Repr, DecidableEq

/-- Python dict assignment `d[k] = v` on an insertion-ordered association
list: overwrite in place when the key exists, append otherwise. -/
def dictInsert (k : String) (v : MappingInfo) :
    List (String × MappingInfo) → List (String × MappingInfo)
  | [] => [(k, v)]
  | (k0, v0) :: rest =>
    if k0 == k then (k, v) :: rest else (k0, v0) :: dictInsert k v rest

/-- The field loop of `map_fields_to_user_data` (yin `mapper_agent.py`,
lines 64-104), carried as a left fold over the accumulated `mapping`
dict and `required_missing_fields` list. Note the mapping key is the
field's original-case `name`, while the missing-field record uses the
lowered name (or lowered id when the name is empty). -/
def mapFieldsGo (schema : List String) :
    List FormField → List (String × MappingInfo) × List MissingField →
    List (String × MappingInfo) × List MissingField
  | [], acc => acc
  | field :: rest, (mapping, missing) =>
    let field_name := strLower field.name
    let field_id := strLower field.id
    let field_label := strLower field.label
    let field_placeholder := strLower field.placeholder
    match tryCategories schema field_name field_id field_label field_placeholder
        field_mapping_patterns with
    | some user_field =>
      mapFieldsGo schema rest
        (dictInsert field.name ⟨user_field, field.required, field.type, field.options⟩ mapping,
         missing)
    | none =>
      if field.required then
        mapFieldsGo schema rest
          (mapping,
           missing ++ [⟨if field_name != "" then field_name else field_id,
                        field_label, field.type, field.options⟩])
      else mapFieldsGo schema rest (mapping, missing)

/-- Embedding of `map_fields_to_user_data` (yin `mapper_agent.py`, lines 10-109):
returns the `field_mapping` dict and the `required_missing_fields` list. -/
def map_fields_to_user_data (form_fields : List FormField) (user_data_schema : List String) :
    List (String × MappingInfo) × List MissingField :=
  mapFieldsGo user_data_schema form_fields ([], [])

end Yin

namespace Yin

/-- The list of selector alternatives built by
`build_selector_from_matched_field` (yin `instruction_generator.py`,
lines 92-120) before joining: a kind-scoped attribute selector when the
field name is non-empty, then always the id-shaped selector built from
the field NAME (the function receives no id). -/
def selectorAlternatives (field_name field_type : String) : List String :=
  (if field_name != "" then
    [ if field_type == "checkbox" || field_type == "radio" then
        "input[type=\x27" ++ field_type ++ "\x27][name=\x27" ++ field_name ++ "\x27]"
      else if field_type == "select" then
        "select[name=\x27" ++ field_name ++ "\x27]"
      else if field_type == "textarea" then
        "textarea[name=\x27" ++ field_name ++ "\x27]"
      else
        "input[name=\x27" ++ field_name ++ "\x27]" ]
  else []) ++ ["#" ++ field_name]

/-- Embedding of `build_selector_from_matched_field` (yin `instruction_generator.py`,
lines 92-120): the comma-joined alternatives (the list is never empty, so
the source's empty-list fallback is unreachable). -/
def build_selector_from_matched_field (field_name field_type : String) : String :=
  let selectors := selectorAlternatives field_name field_type
  if !selectors.isEmpty then String.intercalate ", " selectors else ""

/-- A DOM element as far as selector matching is concerned: tag name,
`type` attribute, `name` attribute, `id` attribute. -/
structure Element where
  tag : String
  type_attr : String
  name : String
  id : String
  deriving Repr, DecidableEq

/-- CSS semantics of the id selector `#x`. -/
def matchesIdSel (el : Element) (x : String) : Bool :=
  el.id == x

/-- CSS semantics of `tag[name=\x27x\x27]`. -/
def matchesNameSel (el : Element) (tag x : String) : Bool :=
  el.tag == tag && el.name == x

/-- CSS semantics of `input[type=\x27t\x27][name=\x27x\x27]`. -/
def matchesTypeNameSel (el : Element) (t x : String) : Bool :=
  el.tag == "input" && el.type_attr == t && el.name == x

/-- CSS semantics of the selector string produced by
`build_selector_from_matched_field`: an element matches iff it matches
some comma-separated alternative, i.e. the kind-scoped attribute selector
(when the name is non-empty) or the id selector built from the field
name. -/
def elemMatchesBuiltSelector (el : Element) (field_name field_type : String) : Bool :=
  (if field_name != "" then
    (if field_type == "checkbox" || field_type == "radio" then
      matchesTypeNameSel el field_type field_name
    else if field_type == "select" then
      matchesNameSel el "select" field_name
    else if field_type == "textarea" then
      matchesNameSel el "textarea" field_name
    else
      matchesNameSel el "input" field_name)
  else false) || matchesIdSel el field_name

/-- Embedding of `determine_fill_method` (yin `instruction_generator.py`,
lines 123-140). -/
def determine_fill_method (field_type : String) : String :=
  if field_type == "select" then "select_option"
  else if field_type == "checkbox" || field_type == "radio" then "check"
  else if field_type == "file" then "set_input_files"
  else "fill"

/-- Embedding of `parse_boolean` (yin `instruction_generator.py`, lines 143-158) on a
string value: Python `bool(str)` is true exactly for non-empty strings. -/
def parse_boolean (value : String) : Bool :=
  value != ""

/-- One matched-field record consumed by the yin instruction generator
(`field_name`, `field_type`, `value`, each defaulting to the empty
string). -/
structure MatchedField where
  field_name : String
  field_type : String
  value : String
  deriving Repr, DecidableEq

/-- One fill instruction emitted by the yin instruction generator; the
payload key depends on the field type (`selected_value` for selects,
`checked` for checkbox/radio, `value` otherwise). -/
structure FieldInstruction where
  field_name : String
  field_type : String
  selector : String
  fill_method : String
  value : Option String
  selected_value : Option String
  checked : Option Bool
  deriving Repr, DecidableEq

/-- The matched-field loop of `generate_autofill_instructions` (yin
`instruction_generator.py`, lines 47-82): fields whose name or type is
empty are skipped; every other field yields one instruction with the
built selector, the derived fill method, and the type-specific payload. -/
def generate_autofill_instructions : List MatchedField → List FieldInstruction
  | [] => []
  | m :: rest =>
    if m.field_name == "" || m.field_type == "" then
      generate_autofill_instructions rest
    else
      { field_name := m.field_name
        field_type := m.field_type
        selector := build_selector_from_matched_field m.field_name m.field_type
        fill_method := determine_fill_method m.field_type
        value := if m.field_type == "select" then none
          else if m.field_type == "checkbox" || m.field_type == "radio" then none
          else some m.value
        selected_value := if m.field_type == "select" then some m.value else none
        checked := if m.field_type != "select"
            && (m.field_type == "checkbox" || m.field_type == "radio")
          then some (parse_boolean m.value) else none } ::
      generate_autofill_instructions rest

end Yin

namespace Scraper

/-!
`extract_field_data` and the field-collection loop of `scrape_form` are
textually identical in `guo-.../agents/scraper_agent.py` (lines 126-175)
and `yin-.../agents/scraper_agent.py` (lines 72-113); they are embedded
once here. Attributes a tag may lack are `Option String` (BeautifulSoup
`get` returns `None` when absent); `resolved_label` stands for the result
of the DOM traversal `find_label_for_field`, which depends only on the
surrounding document and is carried on the element here.
-/

/-- One child `option` tag of a `select` element. -/
structure RawOption where
  value : Option String
  text : String
  selected : Bool
  deriving Repr, DecidableEq

/-- One parsed DOM element handed to `extract_field_data`. -/
structure RawElement where
  tag : String
  type_attr : Option String
  name : Option String
  id : Option String
  class_attr : Option String
  placeholder : Option String
  required : Bool
  resolved_label : Option String
  options : List RawOption
  deriving Repr, DecidableEq

/-- One option record of an extracted field descriptor. -/
structure ScrapedOption where
  value : String
  text : String
  selected : Bool
  deriving Repr, DecidableEq

/-- One extracted field descriptor (`field_data` dict of
`extract_field_data`). -/
structure FieldData where
  type : String
  name : String
  id : String
  class_attr : String
  placeholder : String
  required : Bool
  label : Option String
  options : List ScrapedOption
  deriving Repr, DecidableEq

/-- The option loop of `extract_field_data`: options with empty `value`
attribute and empty stripped text are skipped; kept options record the
`value` attribute, the stripped text and the `selected` flag. -/
def extractOptions : List RawOption → List ScrapedOption
  | [] => []
  | o :: rest =>
    let option_value := o.value.getD ""
    let option_text := strTrim o.text
    if option_value != "" || option_text != "" then
      ⟨option_value, option_text, o.selected⟩ :: extractOptions rest
    else extractOptions rest

/-- Embedding of `extract_field_data` (identical in both scraper variants): `input`
elements of type `hidden`, `submit` or `button` yield `none`; otherwise a
descriptor whose `type` is the tag name for non-`input` tags and the
`type` attribute (default `text`) for `input` tags. -/
def extract_field_data (el : RawElement) : Option FieldData :=
  let field_type := el.tag
  if field_type == "input"
      && (let input_type := el.type_attr.getD "text"
          input_type == "hidden" || input_type == "submit" || input_type == "button")
  then none
  else some
    { type := if field_type != "input" then field_type else el.type_attr.getD "text"
      name := el.name.getD ""
      id := el.id.getD ""
      class_attr := el.class_attr.getD ""
      placeholder := el.placeholder.getD ""
      required := el.required
      label := el.resolved_label
      options := if field_type == "select" then extractOptions el.options else [] }

/-- The field-collection loop of `scrape_form`: enumerate the document's
`input`/`select`/`textarea` elements (`find_all` restricted to those tag
names) in document order, keeping each non-`None` extraction. The
per-form branch of the source walks the same three tag names inside each
form and only adds the owning form's id and name to each record. -/
def scrape_form_fields (doc : List RawElement) : List FieldData :=
  (doc.filter fun el =>
    el.tag == "input" || el.tag == "select" || el.tag == "textarea").filterMap
    extract_field_data

end Scraper

namespace GuoExec

/-!
Embedding of the guo Autofill Executor
(`guo-.../agents/autofill_agent.py`). Browser effects are abstracted
into an environment oracle: for each fill pass and each instruction
index it reports whether the element for that instruction's selector was
found and, if found, whether the page actions raised. Everything else
(control flow, which string is recorded in which result list, the
success flag, the error value, the metrics) is translated from the
source.
-/

/-- One autofill instruction as consumed by
`fill_form_with_instructions` (guo `autofill_agent.py`, lines 135-139 and
the per-method `field.get` calls); absent keys default as in the source
(empty string, `False`, empty list). -/
structure Instr where
  field_name : String
  field_type : String
  selector : String
  fill_method : String
  value : String
  selected_value : String
  checked : Bool
  file_paths : List String
  deriving Repr, DecidableEq

/-- What the page did for one instruction: the element for its selector
was not found; the element was found but a page action raised; or the
element was found and every page action succeeded. -/
inductive StepEvent where
  | notFound
  | raised
  | acted
  deriving Repr, DecidableEq

/-- One iteration of the fill loop of `fill_form_with_instructions`
(guo `autofill_agent.py`, lines 135-229): returns whether the field was
filled and the string recorded for it. An empty selector or a missing
element records the field NAME as not filled; every other path records
the SELECTOR — filled on action success for known methods (with
`set_input_files` demanding a non-empty path list), not filled on a
raised action, an empty path list, or an unknown fill method. -/
def runInstr (ev : StepEvent) (field : Instr) : Bool × String :=
  if field.selector == "" then (false, field.field_name)
  else
    match ev with
    | .notFound => (false, field.field_name)
    | .raised => (false, field.selector)
    | .acted =>
      if field.fill_method == "fill" then (true, field.selector)
      else if field.fill_method == "select_option" then (true, field.selector)
      else if field.fill_method == "check" then (true, field.selector)
      else if field.fill_method == "set_input_files" then
        if !field.file_paths.isEmpty then (true, field.selector)
        else (false, field.selector)
      else (false, field.selector)

/-- Embedding of `fill_form_with_instructions` (guo `autofill_agent.py`,
lines 128-234) as a loop over the instruction list, the environment
indexed by the running instruction index `i`: each instruction's record
goes to the filled list or the not-filled list and the loop always
continues to the next instruction. -/
def fill_form_with_instructions (env : Nat → StepEvent) (i : Nat) :
    List Instr → List String × List String
  | [] => ([], [])
  | field :: rest =>
    let (ok, rec) := runInstr (env i) field
    let (fs, ns) := fill_form_with_instructions env (i + 1) rest
    if ok then (rec :: fs, ns) else (fs, rec :: ns)

/-- Environment oracle for one `autofill_form_with_instructions` call:
whether navigation succeeded, the page behaviour of each fill pass,
whether a pagination button was found, and the page URL read at the
end. -/
structure RunEnv where
  navOk : Bool
  pass1 : Nat → StepEvent
  paginationFound : Bool
  pass2 : Nat → StepEvent
  finalUrl : String

/-- The `results` dict of `autofill_form_with_instructions` (guo
`autofill_agent.py`, lines 294-300). -/
structure AutofillResult where
  success : Bool
  filled_fields : List String
  not_filled_fields : List String
  final_url : String
  error : Option String
  deriving Repr, DecidableEq

/-- Embedding of `autofill_form_with_instructions` (guo `autofill_agent.py`,
lines 281-359): failed navigation returns the initial `results` dict
with only the error set; otherwise one fill pass runs, a second pass
over the SAME instruction list runs when pagination handling is enabled
and a pagination button was found, and the result carries the
accumulated lists, the final URL and `success = true`. -/
def autofill_form_with_instructions (env : RunEnv) (handle_pagination : Bool)
    (form_fields : List Instr) : AutofillResult :=
  if !env.navOk then
    { success := false, filled_fields := [], not_filled_fields := []
      final_url := "", error := some "Failed to navigate to the form URL" }
  else
    let r1 := fill_form_with_instructions env.pass1 0 form_fields
    let (filled, not_filled) :=
      if handle_pagination && env.paginationFound then
        let r2 := fill_form_with_instructions env.pass2 0 form_fields
        (r1.1 ++ r2.1, r1.2 ++ r2.2)
      else r1
    { success := true, filled_fields := filled, not_filled_fields := not_filled
      final_url := env.finalUrl, error := none }

/-- The metrics block of `perform_autofill` (guo `autofill_agent.py`,
lines 419-423, textually the same computation as yin
`autofill_agent.py`, lines 306-310): fill_rate is
filled/(filled+notFilled)*100 when the denominator is positive and 0
otherwise, computed here over the rationals in place of Python floats. -/
def fill_rate (filled_count not_filled_count : Nat) : ℚ :=
  if filled_count + not_filled_count > 0 then
    (filled_count : ℚ) / ((filled_count : ℚ) + (not_filled_count : ℚ)) * 100
  else 0

/-- The `metrics` record attached by `perform_autofill`. -/
structure Metrics where
  filled_count : Nat
  not_filled_count : Nat
  rate : ℚ
  deriving Repr, DecidableEq

/-- Attach metrics to a result as `perform_autofill` does (guo
`autofill_agent.py`, lines 419-423). -/
def add_metrics (r : AutofillResult) : Metrics :=
  { filled_count := r.filled_fields.length
    not_filled_count := r.not_filled_fields.length
    rate := fill_rate r.filled_fields.length r.not_filled_fields.length }

end GuoExec

/-! ### Concrete inputs used by the claim theorems and witnesses -/

/-- The degree select field of the spec's Scenario B. -/
def c1field : FormField :=
  { name := "degree", type := "select", id := "", label := "", placeholder := ""
    required := false
    options := [⟨"ba", "Bachelor\x27s"⟩, ⟨"ma", "Master\x27s"⟩] }

/-- A text field named `email`. -/
def c2field : FormField :=
  { name := "email", type := "text", id := "", label := "", placeholder := ""
    required := false, options := [] }

/-- A flattened profile in which the key matched only by substring
(`work_email`) precedes the exactly matching key (`email`), and the two
keys hold different values. -/
def c2profile : List (String × String) :=
  [("work_email", "W"), ("email", "E")]

/-! ### Claim theorems -/

/-- C1, counterexample: on the select field of Scenario B
(name `degree`, options `ba`/Bachelor\x27s and `ma`/Master\x27s) with
profile value `master\x27s degree`, the guo mapper emits NO mapping at
all — in particular none with `selected_option = "ma"` — because the
option loop tests containment of the candidate value INSIDE each
option's text or value, and `master\x27s degree` is contained in
neither. -/
theorem C1_counterexample :
    Guo.generate_autofill_instructions [c1field] [("degree", "master\x27s degree")]
      = ([], []) := by
  decide

/-- C1, amended: option resolution tests case-insensitive containment of
the candidate value inside each option's text or value, in list order,
first match winning; the profile value `master\x27s degree` therefore
matches no option of the degree field and the field is left unmatched,
while a candidate value that IS contained in an option's text, such as
`master`, resolves to `selected_option = "ma"`. -/
theorem C1_select_resolution :
    Guo.generate_autofill_instructions [c1field] [("degree", "master\x27s degree")]
        = ([], [])
      ∧ Guo.generate_autofill_instructions [c1field] [("degree", "master")]
        = ([⟨"degree", "select", none, some "ma"⟩], [])
      ∧ Guo.resolveSelectOption "master" c1field.options = some "ma" := by
  refine ⟨by decide, by decide, by decide⟩

/-- C2, counterexample: for the field named `email` and the profile
whose keys iterate as `work_email` (substring match, value `W`) then
`email` (exact case-insensitive match, value `E`), the guo mapper
assigns the substring key's value `W`, not the exact key's value `E`:
iteration order, not match specificity, decides. -/
theorem C2_counterexample :
    Guo.generate_autofill_instructions [c2field] c2profile
        = ([⟨"email", "text", some "W", none⟩], [])
      ∧ Guo.findUserValue "email" c2profile = some "W" := by
  refine ⟨by decide, by decide⟩

/-- C2, amended: the guo mapper's profile search returns the value of
the FIRST profile key in iteration order that matches either exactly
(case-insensitively) or by two-sided substring containment; exact
matching takes precedence over substring matching only within a single
key, so an earlier key matched by substring wins over a later exactly
matching key. -/
theorem C2_first_matching_key (field_name : String) (flat : List (String × String)) :
    Guo.findUserValue field_name flat
      = (flat.find? fun kv => Guo.user_field_matches field_name kv.1).map Prod.snd := by
  induction flat with
  | nil => rfl
  | cons kv rest ih =>
    obtain ⟨k, v⟩ := kv
    by_cases h1 : (strLower field_name == strLower k) = true
    · simp [Guo.findUserValue, Guo.user_field_matches, List.find?, h1]
    · by_cases h2 : (strContains (strLower k) (strLower field_name)
          || strContains (strLower field_name) (strLower k)) = true
      · simp [Guo.findUserValue, Guo.user_field_matches, List.find?, h1, h2]
      · simp [Guo.findUserValue, Guo.user_field_matches, List.find?, h1, h2, ih]

/-- An element carrying only the id `email_addr` (empty name), i.e. an
element that the selector `#email_addr` matches. -/
def c3element : Yin.Element :=
  { tag := "input", type_attr := "text", name := "", id := "email_addr" }

/-- C3, counterexample: for a matched field with `name="email"`,
`id="email_addr"`, `kind="text"`, the generated selector is
`input[name=\x27email\x27], #email` — the id-shaped fallback is built
from the field's NAME (the builder never receives the id) — so the
element that matches `#email_addr` (id `email_addr`, no name) does NOT
satisfy the generated selector. -/
theorem C3_counterexample :
    Yin.build_selector_from_matched_field "email" "text"
        = "input[name=\x27email\x27], #email"
      ∧ Yin.matchesIdSel c3element "email_addr" = true
      ∧ Yin.elemMatchesBuiltSelector c3element "email" "text" = false := by
  refine ⟨by decide, by decide, by decide⟩

/-- C3, amended: for a matched field with `name="email"`, `kind="text"`,
the generated selector is `input[name=\x27email\x27], #email`; an
element satisfies it exactly when it matches `input[name=\x27email\x27]`
or has id equal to the field's NAME (`#email`) — the field's id is not
used in selector construction. -/
theorem C3_selector_semantics :
    Yin.build_selector_from_matched_field "email" "text"
        = "input[name=\x27email\x27], #email"
      ∧ ∀ el : Yin.Element,
        Yin.elemMatchesBuiltSelector el "email" "text"
          = (Yin.matchesNameSel el "input" "email" || Yin.matchesIdSel el "email") := by
  refine ⟨by decide, fun el => ?_⟩
  rfl

/-- A descriptor with empty `name` and empty `id` whose label matches
the first entry of the yin pattern table. -/
def c4field : FormField :=
  { name := "", type := "text", id := "", label := "name", placeholder := ""
    required := false, options := [] }

/-- C4, counterexample: the yin mapper does NOT skip descriptors with
empty name: on a descriptor whose `name` and `id` are both empty but
whose label (`name`) matches the pattern table, with `name` in the
schema, `map_fields_to_user_data` emits a field mapping — keyed by the
empty string — referencing that descriptor. -/
theorem C4_counterexample :
    Yin.map_fields_to_user_data [c4field] ["name"]
      = ([("", ⟨"name", false, "text", []⟩)], []) := by
  decide

/-- C4, amended: the GUO mapper skips every descriptor whose name is
empty, so none of its emitted field mappings has an empty `field_name`;
the YIN mapper, by contrast, emits a mapping keyed by the empty string
for an empty-name descriptor whose label or placeholder matches the
pattern table (see the counterexample). -/
theorem C4_guo_mapper_skips_unnamed
    (fields : List FormField) (flat : List (String × String)) (m : Guo.FieldMapping)
    (hm : m ∈ (Guo.generate_autofill_instructions fields flat).1) :
    m.field_name ≠ "" := by
  induction fields with
  | nil => simp [Guo.generate_autofill_instructions] at hm
  | cons f rest ih =>
    simp only [Guo.generate_autofill_instructions] at hm
    split at hm
    · exact ih hm
    · rename_i hname
      split at hm
      · rename_i hfind
        split at hm
        · exact ih hm
        · exact ih hm
      · rename_i v hfind
        split at hm
        · split at hm
          · rcases List.mem_cons.mp hm with h | h
            · subst h
              simpa using hname
            · exact ih h
          · split at hm
            · exact ih hm
            · exact ih hm
        · rcases List.mem_cons.mp hm with h | h
          · subst h
            simpa using hname
          · exact ih h

/-- Witness for the amended C4: a concrete run of the guo mapper emits
a mapping, and its field name is non-empty by the theorem. -/
theorem C4_witness :
    ∃ m : Guo.FieldMapping,
      m ∈ (Guo.generate_autofill_instructions [c2field] [("email", "E")]).1
        ∧ m.field_name ≠ "" := by
  refine ⟨⟨"email", "text", some "E", none⟩, by decide, ?_⟩
  exact C4_guo_mapper_skips_unnamed [c2field] [("email", "E")]
    ⟨"email", "text", some "E", none⟩ (by decide)

/-- C5: extraction never yields a descriptor of kind `hidden`, `submit`
or `button`: every `input` element whose `type` attribute is one of
those three is dropped by `extract_field_data`, and non-`input` tags
keep their tag name (`select`/`textarea`) as kind. -/
theorem C5_extraction_excludes_nonfillable
    (doc : List Scraper.RawElement) (fd : Scraper.FieldData)
    (hmem : fd ∈ Scraper.scrape_form_fields doc) :
    fd.type ≠ "hidden" ∧ fd.type ≠ "submit" ∧ fd.type ≠ "button" := by
  unfold Scraper.scrape_form_fields at hmem
  rw [List.mem_filterMap] at hmem
  obtain ⟨el, helf, hext⟩ := hmem
  rw [List.mem_filter] at helf
  obtain ⟨-, htag⟩ := helf
  unfold Scraper.extract_field_data at hext
  dsimp only at hext
  split at hext
  · exact absurd hext (by simp)
  · rename_i hguard
    obtain rfl : fd = _ := (Option.some_inj.mp hext).symm
    by_cases hi : el.tag = "input"
    · have hnot : ¬(el.type_attr.getD "text" == "hidden"
          || el.type_attr.getD "text" == "submit"
          || el.type_attr.getD "text" == "button") = true := by
        intro hx
        exact hguard (by simp [hi, hx])
      simp only [Bool.or_eq_true, beq_iff_eq, not_or] at hnot
      obtain ⟨⟨hh, hs⟩, hb⟩ := hnot
      simp [hi, hh, hs, hb]
    · have htag' : el.tag = "select" ∨ el.tag = "textarea" := by
        simp only [Bool.or_eq_true, beq_iff_eq] at htag
        rcases htag with (h | h) | h
        · exact absurd h hi
        · exact Or.inl h
        · exact Or.inr h
      have : (el.tag != "input") = true := by
        simp [bne_iff_ne, hi]
      rcases htag' with h | h <;> simp [this, h]

/-- A document with a hidden input, a submit input, and a plain text
input named `email`. -/
def c5doc : List Scraper.RawElement :=
  [ { tag := "input", type_attr := some "hidden", name := some "csrf", id := none
      class_attr := none, placeholder := none, required := false
      resolved_label := none, options := [] },
    { tag := "input", type_attr := some "submit", name := none, id := none
      class_attr := none, placeholder := none, required := false
      resolved_label := none, options := [] },
    { tag := "input", type_attr := some "text", name := some "email", id := some "email_addr"
      class_attr := none, placeholder := some "you@example.com", required := true
      resolved_label := some "Email", options := [] } ]

/-- The single descriptor extracted from `c5doc`. -/
def c5fd : Scraper.FieldData :=
  { type := "text", name := "email", id := "email_addr", class_attr := ""
    placeholder := "you@example.com", required := true
    label := some "Email", options := [] }

/-- Witness for C5: on `c5doc` the hidden and submit inputs vanish, one
descriptor is extracted, and its kind is none of the excluded three. -/
theorem C5_witness :
    Scraper.scrape_form_fields c5doc = [c5fd]
      ∧ (c5fd.type ≠ "hidden" ∧ c5fd.type ≠ "submit" ∧ c5fd.type ≠ "button") := by
  refine ⟨by decide, ?_⟩
  exact C5_extraction_excludes_nonfillable c5doc c5fd (by decide)

/-- When the element for an instruction is not found, the fill loop
records exactly the instruction's field NAME as not filled (also when
the selector is empty, which short-circuits to the same record). -/
lemma runInstr_notFound (f : GuoExec.Instr) :
    GuoExec.runInstr .notFound f = (false, f.field_name) := by
  unfold GuoExec.runInstr
  split <;> rfl

/-- Every pass of the fill loop accounts for each instruction exactly
once: the filled and not-filled lists together have one record per
instruction. -/
lemma fill_loop_length (env : Nat → GuoExec.StepEvent) :
    ∀ (instrs : List GuoExec.Instr) (i : Nat),
      (GuoExec.fill_form_with_instructions env i instrs).1.length
        + (GuoExec.fill_form_with_instructions env i instrs).2.length
        = instrs.length := by
  intro instrs
  induction instrs with
  | nil => intro i; rfl
  | cons f rest ih =>
    intro i
    unfold GuoExec.fill_form_with_instructions
    rcases h : GuoExec.runInstr (env i) f with ⟨ok, r⟩
    rcases hr : GuoExec.fill_form_with_instructions env (i + 1) rest with ⟨fs, ns⟩
    have := ih (i + 1)
    rw [hr] at this
    cases ok <;> simp_all <;> omega

/-- Any instruction whose run records a not-filled result contributes
that record to the not-filled list of its pass. -/
lemma fill_loop_mem_notFilled (env : Nat → GuoExec.StepEvent) :
    ∀ (instrs : List GuoExec.Instr) (i0 j : Nat) (f : GuoExec.Instr),
      instrs.get? j = some f →
      (GuoExec.runInstr (env (i0 + j)) f).1 = false →
      (GuoExec.runInstr (env (i0 + j)) f).2
        ∈ (GuoExec.fill_form_with_instructions env i0 instrs).2 := by
  intro instrs
  induction instrs with
  | nil => intro i0 j f h; simp at h
  | cons g rest ih =>
    intro i0 j f hget hfalse
    cases j with
    | zero =>
      rw [List.get?_cons_zero, Option.some_inj] at hget
      subst hget
      rw [Nat.add_zero] at hfalse ⊢
      unfold GuoExec.fill_form_with_instructions
      rcases h : GuoExec.runInstr (env i0) g with ⟨ok, r⟩
      rw [h] at hfalse
      have hok : ok = false := hfalse
      subst hok
      simp
    | succ j' =>
      rw [List.get?_cons_succ] at hget
      have hidx : i0 + (j' + 1) = (i0 + 1) + j' := by omega
      rw [hidx] at hfalse ⊢
      have hmem := ih (i0 + 1) j' f hget hfalse
      unfold GuoExec.fill_form_with_instructions
      rcases h : GuoExec.runInstr (env i0) g with ⟨ok, r⟩
      rcases hr : GuoExec.fill_form_with_instructions env (i0 + 1) rest with ⟨fs, ns⟩
      rw [hr] at hmem
      cases ok <;> simp_all

/-- C6: when navigation to the form URL fails, the executor returns the
initial results record with only the error set: `success = false`, a
non-empty error string, and BOTH the filled and not-filled lists
empty — no fields attempted. -/
theorem C6_navigation_failure_result
    (env : GuoExec.RunEnv) (handle_pagination : Bool) (instrs : List GuoExec.Instr)
    (hnav : env.navOk = false) :
    (GuoExec.autofill_form_with_instructions env handle_pagination instrs).success = false
      ∧ (∃ msg, (GuoExec.autofill_form_with_instructions env handle_pagination instrs).error
            = some msg ∧ msg ≠ "")
      ∧ (GuoExec.autofill_form_with_instructions env handle_pagination instrs).filled_fields = []
      ∧ (GuoExec.autofill_form_with_instructions env handle_pagination instrs).not_filled_fields
          = [] := by
  have hres : GuoExec.autofill_form_with_instructions env handle_pagination instrs
      = { success := false, filled_fields := [], not_filled_fields := []
          final_url := "", error := some "Failed to navigate to the form URL" } := by
    unfold GuoExec.autofill_form_with_instructions
    rw [hnav]
    rfl
  rw [hres]
  exact ⟨rfl, ⟨"Failed to navigate to the form URL", rfl, by decide⟩, rfl, rfl⟩

/-- An environment whose navigation fails. -/
def c6env : GuoExec.RunEnv :=
  { navOk := false, pass1 := fun _ => .acted, paginationFound := false
    pass2 := fun _ => .acted, finalUrl := "" }

/-- Witness for C6 at the concrete failing-navigation environment. -/
theorem C6_witness :
    (GuoExec.autofill_form_with_instructions c6env false []).success = false
      ∧ (∃ msg, (GuoExec.autofill_form_with_instructions c6env false []).error
            = some msg ∧ msg ≠ "")
      ∧ (GuoExec.autofill_form_with_instructions c6env false []).filled_fields = []
      ∧ (GuoExec.autofill_form_with_instructions c6env false []).not_filled_fields = [] :=
  C6_navigation_failure_result c6env false [] rfl

/-- C7: once navigation succeeded the run always completes with
`success = true`, and every instruction whose per-field handling does
not fill (missing element, raised page action, empty file list, unknown
method) has its record in the not-filled list — one field's failure
never aborts the remaining instructions, which in a pagination-free run
are all accounted for. -/
theorem C7_per_field_recovery
    (env : GuoExec.RunEnv) (handle_pagination : Bool) (instrs : List GuoExec.Instr)
    (hnav : env.navOk = true) :
    (GuoExec.autofill_form_with_instructions env handle_pagination instrs).success = true
      ∧ (∀ j f, instrs.get? j = some f →
          (GuoExec.runInstr (env.pass1 j) f).1 = false →
          (GuoExec.runInstr (env.pass1 j) f).2
            ∈ (GuoExec.autofill_form_with_instructions env
                handle_pagination instrs).not_filled_fields)
      ∧ (handle_pagination = false →
          (GuoExec.autofill_form_with_instructions env
              handle_pagination instrs).filled_fields.length
            + (GuoExec.autofill_form_with_instructions env
                handle_pagination instrs).not_filled_fields.length
            = instrs.length) := by
  cases hpag : handle_pagination && env.paginationFound with
  | true =>
    have hres : GuoExec.autofill_form_with_instructions env handle_pagination instrs
        = { success := true
            filled_fields := (GuoExec.fill_form_with_instructions env.pass1 0 instrs).1
              ++ (GuoExec.fill_form_with_instructions env.pass2 0 instrs).1
            not_filled_fields := (GuoExec.fill_form_with_instructions env.pass1 0 instrs).2
              ++ (GuoExec.fill_form_with_instructions env.pass2 0 instrs).2
            final_url := env.finalUrl, error := none } := by
      unfold GuoExec.autofill_form_with_instructions
      rw [hnav, hpag]
      rfl
    rw [hres]
    refine ⟨rfl, ?_, ?_⟩
    · intro j f hget hfalse
      have hmem := fill_loop_mem_notFilled env.pass1 instrs 0 j f hget
        (by rw [Nat.zero_add]; exact hfalse)
      rw [Nat.zero_add] at hmem
      exact List.mem_append_left _ hmem
    · intro hp
      rw [hp, Bool.false_and] at hpag
      exact absurd hpag (by decide)
  | false =>
    have hres : GuoExec.autofill_form_with_instructions env handle_pagination instrs
        = { success := true
            filled_fields := (GuoExec.fill_form_with_instructions env.pass1 0 instrs).1
            not_filled_fields := (GuoExec.fill_form_with_instructions env.pass1 0 instrs).2
            final_url := env.finalUrl, error := none } := by
      unfold GuoExec.autofill_form_with_instructions
      rw [hnav, hpag]
      rfl
    rw [hres]
    refine ⟨rfl, ?_, ?_⟩
    · intro j f hget hfalse
      have hmem := fill_loop_mem_notFilled env.pass1 instrs 0 j f hget
        (by rw [Nat.zero_add]; exact hfalse)
      rw [Nat.zero_add] at hmem
      exact hmem
    · intro _
      exact fill_loop_length env.pass1 instrs 0

/-- An environment with successful navigation where the element of the
first instruction is never found. -/
def c7env : GuoExec.RunEnv :=
  { navOk := true, pass1 := fun _ => .notFound, paginationFound := false
    pass2 := fun _ => .acted, finalUrl := "https://example.com/form?page=1" }

/-- A single `fill` instruction whose selector matches nothing under
`c7env`. -/
def c7instr : GuoExec.Instr :=
  { field_name := "email", field_type := "text"
    selector := "input[name=\x27email\x27], #email", fill_method := "fill"
    value := "a@b.c", selected_value := "", checked := false, file_paths := [] }

/-- Witness for C7, the spec's Scenario D: one fill instruction whose
selector matches nothing — the run completes with `success = true` and
the field name in the not-filled list. -/
theorem C7_witness :
    (GuoExec.autofill_form_with_instructions c7env false [c7instr]).success = true
      ∧ "email" ∈ (GuoExec.autofill_form_with_instructions c7env
          false [c7instr]).not_filled_fields
      ∧ (GuoExec.autofill_form_with_instructions c7env false [c7instr]).filled_fields.length
          + (GuoExec.autofill_form_with_instructions c7env
              false [c7instr]).not_filled_fields.length = 1 := by
  obtain ⟨hsucc, hrec, hlen⟩ := C7_per_field_recovery c7env false [c7instr] rfl
  refine ⟨hsucc, ?_, hlen rfl⟩
  have := hrec 0 c7instr rfl (by rw [show c7env.pass1 0 = .notFound from rfl,
    runInstr_notFound])
  rw [show c7env.pass1 0 = .notFound from rfl, runInstr_notFound] at this
  exact this

/-- C9: in every single fill pass, each instruction contributes exactly
one record to exactly one of the filled / not-filled lists, so the two
lengths sum to the number of instructions processed. -/
theorem C9_fill_pass_totality
    (env : Nat → GuoExec.StepEvent) (i : Nat) (instrs : List GuoExec.Instr) :
    (GuoExec.fill_form_with_instructions env i instrs).1.length
      + (GuoExec.fill_form_with_instructions env i instrs).2.length
      = instrs.length :=
  fill_loop_length env instrs i

/-- The fill rate is a percentage between 0 and 100 for any pair of
counts. -/
lemma fill_rate_bounds_aux (a b : ℕ) :
    0 ≤ GuoExec.fill_rate a b ∧ GuoExec.fill_rate a b ≤ 100 := by
  unfold GuoExec.fill_rate
  split
  · rename_i hpos
    have hab : (0 : ℚ) < (a : ℚ) + (b : ℚ) := by
      have : 0 < a + b := hpos
      exact_mod_cast this
    constructor
    · positivity
    · have h1 : (a : ℚ) / ((a : ℚ) + (b : ℚ)) ≤ 1 := by
        rw [div_le_one hab]
        have : (0 : ℚ) ≤ (b : ℚ) := by positivity
        linarith
      calc (a : ℚ) / ((a : ℚ) + (b : ℚ)) * 100 ≤ 1 * 100 := by
            have h0 : (0 : ℚ) ≤ (a : ℚ) / ((a : ℚ) + (b : ℚ)) := by positivity
            nlinarith
        _ = 100 := by norm_num
  · norm_num

/-- C8: the metrics attached by `perform_autofill` always have a
`fill_rate` in the closed interval 0 to 100; the rate equals
filled/(filled+notFilled)*100 when at least one field was attempted,
and equals 0 when both result lists are empty. -/
theorem C8_fill_rate_bounds (r : GuoExec.AutofillResult) :
    0 ≤ (GuoExec.add_metrics r).rate
      ∧ (GuoExec.add_metrics r).rate ≤ 100
      ∧ (0 < r.filled_fields.length + r.not_filled_fields.length →
          (GuoExec.add_metrics r).rate
            = (r.filled_fields.length : ℚ)
              / ((r.filled_fields.length : ℚ) + (r.not_filled_fields.length : ℚ)) * 100)
      ∧ (r.filled_fields = [] ∧ r.not_filled_fields = [] →
          (GuoExec.add_metrics r).rate = 0) := by
  obtain ⟨h0, h100⟩ := fill_rate_bounds_aux r.filled_fields.length r.not_filled_fields.length
  refine ⟨h0, h100, ?_, ?_⟩
  · intro hpos
    unfold GuoExec.add_metrics GuoExec.fill_rate
    rw [if_pos hpos]
  · rintro ⟨hf, hn⟩
    unfold GuoExec.add_metrics GuoExec.fill_rate
    rw [hf, hn]
    norm_num

/-- A result with one filled and one not-filled field. -/
def c8result : GuoExec.AutofillResult :=
  { success := true, filled_fields := ["input[name=\x27email\x27], #email"]
    not_filled_fields := ["phone"], final_url := "https://example.com/done"
    error := none }

/-- A result with no attempted fields at all. -/
def c8empty : GuoExec.AutofillResult :=
  { success := true, filled_fields := [], not_filled_fields := []
    final_url := "https://example.com/done", error := none }

/-- Witness for C8: on a result with one filled and one not-filled
field the rate is 50; on a result with no attempted fields it is 0. -/
theorem C8_witness :
    (GuoExec.add_metrics c8result).rate = 50
      ∧ (GuoExec.add_metrics c8empty).rate = 0 := by
  constructor
  · have h := (C8_fill_rate_bounds c8result).2.2.1 (by decide)
    rw [h]
    norm_num [c8result]
  · exact (C8_fill_rate_bounds c8empty).2.2.2 ⟨rfl, rfl⟩

/-- C10: the yin instruction generator skips every matched field whose
`field_name` or `field_type` is empty, so each emitted instruction has a
non-empty name and a non-empty type. -/
theorem C10_instruction_nonempty_names
    (matched : List Yin.MatchedField) (instr : Yin.FieldInstruction)
    (hmem : instr ∈ Yin.generate_autofill_instructions matched) :
    instr.field_name ≠ "" ∧ instr.field_type ≠ "" := by
  induction matched with
  | nil => simp [Yin.generate_autofill_instructions] at hmem
  | cons m rest ih =>
    simp only [Yin.generate_autofill_instructions] at hmem
    split at hmem
    · exact ih hmem
    · rename_i hcond
      simp only [Bool.or_eq_true, beq_iff_eq, not_or] at hcond
      rcases List.mem_cons.mp hmem with h | h
      · subst h
        exact ⟨hcond.1, hcond.2⟩
      · exact ih h

/-- One well-formed matched field. -/
def c10matched : List Yin.MatchedField :=
  [⟨"email", "text", "a@b.c"⟩]

/-- The instruction generated from `c10matched`. -/
def c10instr : Yin.FieldInstruction :=
  { field_name := "email", field_type := "text"
    selector := "input[name=\x27email\x27], #email", fill_method := "fill"
    value := some "a@b.c", selected_value := none, checked := none }

/-- Witness for C10: the instruction generated for a concrete matched
field is emitted and has a non-empty name and type. -/
theorem C10_witness :
    c10instr ∈ Yin.generate_autofill_instructions c10matched
      ∧ c10instr.field_name ≠ "" ∧ c10instr.field_type ≠ "" := by
  refine ⟨by decide, ?_⟩
  exact C10_instruction_nonempty_names c10matched c10instr (by decide)

end JobAutofill
